import Mathlib

/-!
Shallow embedding of the offline caching layer (service worker) of the
tutorial-platform repository, translated from `src/static/sw.js`.

Modelling conventions:
- A `Response` carries status, statusText, an optional Content-Type header,
  the Fetch response type (basic / cors / opaq / ...) and a body string.
  `respOk` is the Fetch `Response.ok` predicate (status in 200..299).
- The network is an oracle `Network : String → Option Response`: `none`
  models a failed fetch (the promise rejects / the `catch` branch runs),
  `some r` models a completed fetch with response `r` (any status).
- `CacheStorage` is an association list of named caches kept in creation
  order; `cachesMatch` is the global `caches.match(request)` lookup that
  scans every cache in order, `cachePut` is `caches.open(name)` followed by
  `cache.put(request, response)` (overwrite; the cache is created at the
  end of the list when absent), mirroring the browser Cache API.
- Requests carry the pieces of state the worker inspects: method, full URL
  (the cache key), pathname, origin, protocol, mode and the Accept header.
-/

/-- Fetch API response types. -/
inductive RType where
  | basic
  | cors
  | opaq
  | error
  | opaqRedirect
deriving DecidableEq, Repr

/-- A snapshot of an HTTP response: status, statusText, optional
Content-Type header, Fetch response type and body. -/
structure Response where
  status : Nat
  statusText : String := ""
  contentType : Option String := none
  rtype : RType := RType.basic
  body : String := ""
deriving DecidableEq, Repr

/-- The Fetch `Response.ok` predicate: status in the range 200..299. -/
def respOk (r : Response) : Bool :=
  200 ≤ r.status && r.status < 300

/-- An intercepted request: the fields `sw.js` inspects. `url` is the full
URL and serves as the cache key; `pathname`, `origin` and `protocol` are its
parsed components (`new URL(request.url)`). -/
structure Request where
  method : String
  url : String
  pathname : String
  origin : String
  protocol : String
  mode : String
  accept : Option String := none
deriving DecidableEq, Repr

/-- The network oracle: `none` is a failed fetch (rejected promise),
`some r` is a completed fetch. -/
abbrev Network : Type := String → Option Response

/-- One named cache: an association list from request URL to the stored
response snapshot. Keys are unique because writes overwrite in place. -/
abbrev SWCache : Type := List (String × Response)

/-- The cache storage: named caches in creation order. -/
abbrev CacheStorage : Type := List (String × SWCache)

/-- Exact-key lookup inside one cache (`cache.match(request)`). -/
def entryLookup : SWCache → String → Option Response
  | [], _ => none
  | (k, r) :: rest, key => if k = key then some r else entryLookup rest key

/-- Overwriting store inside one cache (`cache.put(request, response)`):
replaces the entry in place if the key exists, otherwise appends. -/
def putEntry : SWCache → String → Response → SWCache
  | [], key, r => [(key, r)]
  | (k, r0) :: rest, key, r =>
      if k = key then (key, r) :: rest else (k, r0) :: putEntry rest key r

/-- Find a cache by name (`caches.open` without creation). -/
def lookupCache : CacheStorage → String → Option SWCache
  | [], _ => none
  | (n, c) :: rest, name => if n = name then some c else lookupCache rest name

/-- The value stored for `key` in the cache named `name`, if any. -/
def partitionLookup (cs : CacheStorage) (name key : String) : Option Response :=
  match lookupCache cs name with
  | some c => entryLookup c key
  | none => none

/-- `caches.open(name)` followed by `cache.put(key, r)`: writes into the
named cache, creating it (at the end, in creation order) when absent. -/
def cachePut : CacheStorage → String → String → Response → CacheStorage
  | [], name, key, r => [(name, [(key, r)])]
  | (n, c) :: rest, name, key, r =>
      if n = name then (n, putEntry c key r) :: rest
      else (n, c) :: cachePut rest name key r

/-- `caches.open(name)` alone: ensures the named cache exists. -/
def cacheOpen : CacheStorage → String → CacheStorage
  | [], name => [(name, [])]
  | (n, c) :: rest, name =>
      if n = name then (n, c) :: rest else (n, c) :: cacheOpen rest name

/-- The global `caches.match(request)` lookup: scans every cache in
creation order and returns the first exact-key hit. -/
def cachesMatch : CacheStorage → String → Option Response
  | [], _ => none
  | (_, c) :: rest, key =>
      match entryLookup c key with
      | some r => some r
      | none => cachesMatch rest key

/-- Cache version constant from `sw.js`. -/
def CACHE_VERSION : String := "v2"

/-- Name of the static partition for the current version. -/
def STATIC_CACHE : String := "tutorial-platform-static-" ++ CACHE_VERSION

/-- Name of the dynamic partition for the current version. -/
def DYNAMIC_CACHE : String := "tutorial-platform-dynamic-" ++ CACHE_VERSION

/-- Name of the API partition for the current version. -/
def API_CACHE : String := "tutorial-platform-api-" ++ CACHE_VERSION

/-- The pre-cache manifest (app shell) from `sw.js`. -/
def STATIC_RESOURCES : List String :=
  [ "/",
    "/static/css/style.css",
    "/static/js/main.js",
    "/static/js/admin.js",
    "/static/favicon.ico",
    "/manifest.json",
    "/static/pwa-icons/icon-192x192.png",
    "/static/pwa-icons/icon-512x512.png",
    "https://cdn.jsdelivr.net/npm/bootstrap@5.3.0/dist/css/bootstrap.min.css",
    "https://cdn.jsdelivr.net/npm/bootstrap-icons@1.10.0/font/bootstrap-icons.css",
    "https://cdn.jsdelivr.net/npm/bootstrap@5.3.0/dist/js/bootstrap.bundle.min.js",
    "https://cdn.jsdelivr.net/npm/sortablejs@latest/Sortable.min.js" ]

/-- Helper for substring search: does `pat` start `s`? -/
def isPrefixL : List Char → List Char → Bool
  | [], _ => true
  | _ :: _, [] => false
  | a :: as, b :: bs => a == b && isPrefixL as bs

/-- Helper for substring search: does `pat` occur anywhere in the list? -/
def containsL (pat : List Char) : List Char → Bool
  | [] => pat.isEmpty
  | c :: tail => isPrefixL pat (c :: tail) || containsL pat tail

/-- JavaScript `String.prototype.includes`. -/
def strContains (s pat : String) : Bool :=
  containsL pat.data s.data

/-- JavaScript `String.prototype.startsWith`. -/
def strStartsWith (s pre : String) : Bool :=
  isPrefixL pre.data s.data

/-- The `request.headers.get('accept')?.includes('text/html')` test from the
fetch router (optional chaining: a missing header yields false). -/
def acceptIncludesHtml (req : Request) : Bool :=
  match req.accept with
  | some a => strContains a "text/html"
  | none => false

/-- The synthesized response of `handleStaticResource` when both cache and
network fail: `new Response('Resource not available offline', { status: 503,
statusText: 'Service Unavailable' })`. -/
def staticOffline : Response :=
  { status := 503, statusText := "Service Unavailable",
    body := "Resource not available offline" }

/-- The synthesized response of `handleApiRequest` when both network and
cache fail: status 503, JSON body produced by
`JSON.stringify({ error: 'Offline - data not available' })`, with a
`Content-Type: application/json` header. -/
def apiOffline : Response :=
  { status := 503, contentType := some "application/json",
    body := "\x7b\"error\":\"Offline - data not available\"\x7d" }

/-- The synthesized response of `handleDynamicResource` when both network
and cache fail: `new Response('Content not available offline', { status: 503 })`. -/
def dynamicOffline : Response :=
  { status := 503, body := "Content not available offline" }

/-- The body of the offline fallback page built by `createOfflinePage`,
reproduced line by line from the template literal in `sw.js` (braces and
apostrophes written with escapes; the icon characters are the exact
code points stored in the source file). -/
def offlineHtmlBody : String :=
  String.intercalate "\n"
    [ "",
      "    <!DOCTYPE html>",
      "    <html lang=\"en\">",
      "    <head>",
      "        <meta charset=\"UTF-8\">",
      "        <meta name=\"viewport\" content=\"width=device-width, initial-scale=1.0\">",
      "        <title>Offline - Tutorial Platform</title>",
      "        <style>",
      "            body \x7b ",
      "                font-family: Arial, sans-serif; ",
      "                text-align: center; ",
      "                padding: 2rem; ",
      "                color: #333; ",
      "                background: linear-gradient(135deg, #007bff 0%, #0056b3 100%);",
      "                min-height: 100vh;",
      "                margin: 0;",
      "                display: flex;",
      "                align-items: center;",
      "                justify-content: center;",
      "            \x7d",
      "            .offline-container \x7b",
      "                background: white;",
      "                padding: 3rem;",
      "                border-radius: 15px;",
      "                box-shadow: 0 10px 30px rgba(0,0,0,0.2);",
      "                max-width: 500px;",
      "            \x7d",
      "            .offline-icon \x7b",
      "                font-size: 4rem;",
      "                margin-bottom: 1rem;",
      "            \x7d",
      "            h1 \x7b color: #007bff; margin-bottom: 1rem; \x7d",
      "            p \x7b color: #666; line-height: 1.6; margin-bottom: 1.5rem; \x7d",
      "            .btn \x7b",
      "                background: #007bff;",
      "                color: white;",
      "                border: none;",
      "                padding: 12px 24px;",
      "                border-radius: 5px;",
      "                cursor: pointer;",
      "                text-decoration: none;",
      "                display: inline-block;",
      "                font-size: 1rem;",
      "            \x7d",
      "            .btn:hover \x7b background: #0056b3; \x7d",
      "        </style>",
      "    </head>",
      "    <body>",
      "        <div class=\"offline-container\">",
      "            <div class=\"offline-icon\">ðŸ“š</div>",
      "            <h1>You\x27re Offline</h1>",
      "            <p>It looks like you\x27re not connected to the internet. Some content may not be available, but you can still access previously visited pages.</p>",
      "            <p>Once your connection is restored, you\x27ll have access to all features.</p>",
      "            <button class=\"btn\" onclick=\"window.location.reload()\">Try Again</button>",
      "        </div>",
      "    </body>",
      "    </html>",
      "  " ]

/-- The offline fallback page of `createOfflinePage`: status 200,
`Content-Type: text/html`, body the full self-contained HTML document. -/
def createOfflinePage : Response :=
  { status := 200, contentType := some "text/html", body := offlineHtmlBody }

/-- Cache-First strategy of `handleStaticResource`: serve from cache when a
hit exists (no network attempt), otherwise fetch; store a copy on an ok
response; synthesize `staticOffline` when the fetch fails. Returns the
response together with the updated cache storage. -/
def handleStaticResource (net : Network) (cs : CacheStorage) (req : Request) :
    Response × CacheStorage :=
  match cachesMatch cs req.url with
  | some r => (r, cs)
  | none =>
    match net req.url with
    | some nr =>
        if respOk nr then (nr, cachePut cs STATIC_CACHE req.url nr) else (nr, cs)
    | none => (staticOffline, cs)

/-- Network-First strategy of `handleApiRequest`: fetch first; store a copy
into the API partition on an ok response; on fetch failure fall back to the
cache and then to the `apiOffline` JSON error. -/
def handleApiRequest (net : Network) (cs : CacheStorage) (req : Request) :
    Response × CacheStorage :=
  match net req.url with
  | some nr =>
      if respOk nr then (nr, cachePut cs API_CACHE req.url nr) else (nr, cs)
  | none =>
    match cachesMatch cs req.url with
    | some r => (r, cs)
    | none => (apiOffline, cs)

/-- Network-First strategy of `handleNavigationRequest`: fetch first; store
a copy into the dynamic partition on an ok response; on fetch failure fall
back to the cache and then to the offline page. -/
def handleNavigationRequest (net : Network) (cs : CacheStorage) (req : Request) :
    Response × CacheStorage :=
  match net req.url with
  | some nr =>
      if respOk nr then (nr, cachePut cs DYNAMIC_CACHE req.url nr) else (nr, cs)
  | none =>
    match cachesMatch cs req.url with
    | some r => (r, cs)
    | none => (createOfflinePage, cs)

/-- Network-First strategy of `handleDynamicResource`: fetch first; store a
copy into the dynamic partition on an ok response; on fetch failure fall
back to the cache and then to the `dynamicOffline` error. -/
def handleDynamicResource (net : Network) (cs : CacheStorage) (req : Request) :
    Response × CacheStorage :=
  match net req.url with
  | some nr =>
      if respOk nr then (nr, cachePut cs DYNAMIC_CACHE req.url nr) else (nr, cs)
  | none =>
    match cachesMatch cs req.url with
    | some r => (r, cs)
    | none => (dynamicOffline, cs)

/-- The four handling strategies of the worker. -/
inductive Strategy where
  | STATIC
  | API
  | NAVIGATION
  | DYNAMIC
deriving DecidableEq, Repr

/-- The request classification performed by the cascade of `if` tests in
`handleRequest` (`selfOrigin` is `self.location.origin`). -/
def classify (selfOrigin : String) (req : Request) : Strategy :=
  if STATIC_RESOURCES.contains req.pathname
      || strStartsWith req.pathname "/static/"
      || req.origin != selfOrigin then Strategy.STATIC
  else if strStartsWith req.pathname "/api/" then Strategy.API
  else if req.mode == "navigate" || acceptIncludesHtml req then Strategy.NAVIGATION
  else Strategy.DYNAMIC

/-- The partition each strategy writes into. -/
def strategyCache : Strategy → String
  | Strategy.STATIC => STATIC_CACHE
  | Strategy.API => API_CACHE
  | Strategy.NAVIGATION => DYNAMIC_CACHE
  | Strategy.DYNAMIC => DYNAMIC_CACHE

/-- The `handleRequest` dispatcher: classify the request and run the
corresponding strategy. -/
def handleRequest (selfOrigin : String) (net : Network) (cs : CacheStorage)
    (req : Request) : Response × CacheStorage :=
  match classify selfOrigin req with
  | Strategy.STATIC => handleStaticResource net cs req
  | Strategy.API => handleApiRequest net cs req
  | Strategy.NAVIGATION => handleNavigationRequest net cs req
  | Strategy.DYNAMIC => handleDynamicResource net cs req

/-- The fetch event listener: non-GET requests and `chrome-extension:`
requests are not intercepted (`none`, cache storage untouched); every other
request is answered by `handleRequest` via `event.respondWith`. -/
def fetchListener (selfOrigin : String) (net : Network) (cs : CacheStorage)
    (req : Request) : Option Response × CacheStorage :=
  if req.method != "GET" || req.protocol == "chrome-extension:" then (none, cs)
  else
    let p := handleRequest selfOrigin net cs req
    (some p.1, p.2)

/-- Fetch every URL of a list, as `cache.addAll` does: succeeds only when
every fetch completes with an ok (2xx) response, returning the url/response
pairs; any failed fetch or non-ok response rejects the whole batch. -/
def fetchAll (net : Network) : List String → Option (List (String × Response))
  | [] => some []
  | u :: rest =>
    match net u with
    | some r =>
        if respOk r then
          match fetchAll net rest with
          | some pairs => some ((u, r) :: pairs)
          | none => none
        else none
    | none => none

/-- Store a batch of url/response pairs into the named cache. -/
def putAll (cs : CacheStorage) (name : String) :
    List (String × Response) → CacheStorage
  | [] => cs
  | (k, r) :: rest => putAll (cachePut cs name k r) name rest

/-- Outcome of the install event: the cache storage afterwards, whether
`self.skipWaiting()` was reached, and whether the pre-cache failure was
caught and logged. -/
structure InstallResult where
  caches : CacheStorage
  skipWaiting : Bool
  preCacheError : Bool
deriving Repr

/-- The install listener: open the static partition, `addAll` the pre-cache
manifest, then `skipWaiting`; a rejected `addAll` (atomic batch) is caught
and logged, the event still completes but `skipWaiting` is never reached. -/
def installEvent (net : Network) (cs : CacheStorage) : InstallResult :=
  let opened := cacheOpen cs STATIC_CACHE
  match fetchAll net STATIC_RESOURCES with
  | some pairs =>
      { caches := putAll opened STATIC_CACHE pairs,
        skipWaiting := true, preCacheError := false }
  | none =>
      { caches := opened, skipWaiting := false, preCacheError := true }

/-- The activate listener's cache cleanup: every cache whose name is not
one of the three current partition names is deleted; the rest are kept. -/
def activateEvent (cs : CacheStorage) : CacheStorage :=
  cs.filter (fun nc =>
    nc.1 == STATIC_CACHE || nc.1 == DYNAMIC_CACHE || nc.1 == API_CACHE)

example : entryLookup (putEntry [] "k" { status := 200 }) "k" = some { status := 200 } := by decide

example : cachesMatch (cachePut [] STATIC_CACHE "/x" { status := 200 }) "/x" = some { status := 200 } := by decide

/-! Helper lemmas about the cache primitives. -/

theorem entryLookup_putEntry (c : SWCache) (key key' : String) (r : Response) :
    entryLookup (putEntry c key r) key' =
      if key' = key then some r else entryLookup c key' := by
  induction c with
  | nil =>
    by_cases h : key' = key
    · subst h; simp [putEntry, entryLookup]
    · simp [putEntry, entryLookup, h, Ne.symm h]
  | cons hd tl ih =>
    obtain ⟨k, r0⟩ := hd
    by_cases hk : k = key
    · subst hk
      by_cases h : key' = k
      · subst h; simp [putEntry, entryLookup]
      · simp [putEntry, entryLookup, h, Ne.symm h]
    · by_cases h : k = key'
      · subst h
        simp [putEntry, entryLookup, hk, Ne.symm hk]
      · simp [putEntry, entryLookup, hk, h, ih]

theorem partitionLookup_cachePut (cs : CacheStorage) (name key name' key' : String)
    (r : Response) :
    partitionLookup (cachePut cs name key r) name' key' =
      if name' = name ∧ key' = key then some r
      else partitionLookup cs name' key' := by
  induction cs with
  | nil =>
    by_cases h1 : name' = name
    · subst h1
      by_cases h2 : key' = key
      · subst h2
        simp [cachePut, partitionLookup, lookupCache, entryLookup]
      · simp [cachePut, partitionLookup, lookupCache, entryLookup, h2, Ne.symm h2]
    · simp [cachePut, partitionLookup, lookupCache, h1, Ne.symm h1]
  | cons hd tl ih =>
    obtain ⟨n, c⟩ := hd
    by_cases hn : n = name
    · subst hn
      by_cases h1 : name' = n
      · subst h1
        simp [cachePut, partitionLookup, lookupCache, entryLookup_putEntry]
      · simp [cachePut, partitionLookup, lookupCache, h1, Ne.symm h1]
    · by_cases h1 : n = name'
      · subst h1
        have hne : ¬(n = name ∧ key' = key) := fun hh => hn hh.1
        simp [cachePut, partitionLookup, lookupCache, hn, hne]
      · have hrec := ih
        simp only [partitionLookup] at hrec ⊢
        simp [cachePut, lookupCache, hn, h1]
        simpa [partitionLookup] using hrec

theorem cachesMatch_cachePut_of_none (cs : CacheStorage) (name key : String)
    (r : Response) (h : cachesMatch cs key = none) :
    cachesMatch (cachePut cs name key r) key = some r := by
  induction cs with
  | nil => simp [cachePut, cachesMatch, entryLookup]
  | cons hd tl ih =>
    obtain ⟨n, c⟩ := hd
    simp only [cachesMatch] at h
    rcases he : entryLookup c key with _ | r0
    · rw [he] at h
      by_cases hn : n = name
      · subst hn
        simp [cachePut, cachesMatch, entryLookup_putEntry]
      · simp [cachePut, cachesMatch, hn, he, ih h]
    · rw [he] at h; exact absurd h (by simp)

theorem cachesMatch_mem (cs : CacheStorage) (key : String) (r : Response)
    (h : cachesMatch cs key = some r) :
    ∃ nc ∈ cs, entryLookup nc.2 key = some r := by
  induction cs with
  | nil => simp [cachesMatch] at h
  | cons hd tl ih =>
    obtain ⟨n, c⟩ := hd
    simp only [cachesMatch] at h
    rcases he : entryLookup c key with _ | r0
    · rw [he] at h
      obtain ⟨nc, hmem, hl⟩ := ih h
      exact ⟨nc, List.mem_cons_of_mem _ hmem, hl⟩
    · rw [he] at h
      refine ⟨(n, c), List.mem_cons_self _ _, ?_⟩
      simp at h; rw [he, h]

/-! Case-analysis lemmas: each strategy either leaves the cache storage
unchanged or performs a single write of an ok network response into its own
partition. -/

theorem handleStaticResource_cases (net : Network) (cs : CacheStorage) (req : Request) :
    (handleStaticResource net cs req).2 = cs ∨
    ∃ nr, net req.url = some nr ∧ respOk nr = true ∧
      (handleStaticResource net cs req).2 = cachePut cs STATIC_CACHE req.url nr := by
  rcases hm : cachesMatch cs req.url with _ | r
  · rcases h : net req.url with _ | nr
    · left; simp [handleStaticResource, hm, h]
    · by_cases hok : respOk nr
      · right; exact ⟨nr, rfl, hok, by simp [handleStaticResource, hm, h, hok]⟩
      · left; simp [handleStaticResource, hm, h, hok]
  · left; simp [handleStaticResource, hm]

theorem handleApiRequest_cases (net : Network) (cs : CacheStorage) (req : Request) :
    (handleApiRequest net cs req).2 = cs ∨
    ∃ nr, net req.url = some nr ∧ respOk nr = true ∧
      (handleApiRequest net cs req).2 = cachePut cs API_CACHE req.url nr := by
  rcases h : net req.url with _ | nr
  · rcases hm : cachesMatch cs req.url with _ | r <;> left <;>
      simp [handleApiRequest, h, hm]
  · by_cases hok : respOk nr
    · right; exact ⟨nr, rfl, hok, by simp [handleApiRequest, h, hok]⟩
    · left; simp [handleApiRequest, h, hok]

theorem handleNavigationRequest_cases (net : Network) (cs : CacheStorage) (req : Request) :
    (handleNavigationRequest net cs req).2 = cs ∨
    ∃ nr, net req.url = some nr ∧ respOk nr = true ∧
      (handleNavigationRequest net cs req).2 = cachePut cs DYNAMIC_CACHE req.url nr := by
  rcases h : net req.url with _ | nr
  · rcases hm : cachesMatch cs req.url with _ | r <;> left <;>
      simp [handleNavigationRequest, h, hm]
  · by_cases hok : respOk nr
    · right; exact ⟨nr, rfl, hok, by simp [handleNavigationRequest, h, hok]⟩
    · left; simp [handleNavigationRequest, h, hok]

theorem handleDynamicResource_cases (net : Network) (cs : CacheStorage) (req : Request) :
    (handleDynamicResource net cs req).2 = cs ∨
    ∃ nr, net req.url = some nr ∧ respOk nr = true ∧
      (handleDynamicResource net cs req).2 = cachePut cs DYNAMIC_CACHE req.url nr := by
  rcases h : net req.url with _ | nr
  · rcases hm : cachesMatch cs req.url with _ | r <;> left <;>
      simp [handleDynamicResource, h, hm]
  · by_cases hok : respOk nr
    · right; exact ⟨nr, rfl, hok, by simp [handleDynamicResource, h, hok]⟩
    · left; simp [handleDynamicResource, h, hok]

theorem fetchListener_cases (selfOrigin : String) (net : Network) (cs : CacheStorage)
    (req : Request) :
    (fetchListener selfOrigin net cs req).2 = cs ∨
    ∃ nr, net req.url = some nr ∧ respOk nr = true ∧
      (fetchListener selfOrigin net cs req).2 =
        cachePut cs (strategyCache (classify selfOrigin req)) req.url nr := by
  by_cases hskip : (req.method != "GET" || req.protocol == "chrome-extension:") = true
  · left; simp [fetchListener, hskip]
  · have hsnd : (fetchListener selfOrigin net cs req).2 =
        (handleRequest selfOrigin net cs req).2 := by
      simp [fetchListener, hskip]
    rw [hsnd]
    unfold handleRequest
    rcases hc : classify selfOrigin req with _ | _ | _ | _
    · simpa [hc, strategyCache] using handleStaticResource_cases net cs req
    · simpa [hc, strategyCache] using handleApiRequest_cases net cs req
    · simpa [hc, strategyCache] using handleNavigationRequest_cases net cs req
    · simpa [hc, strategyCache] using handleDynamicResource_cases net cs req

/-! Lemmas about the install batch. -/

theorem fetchAll_mem (net : Network) (urls : List String)
    (pairs : List (String × Response)) (h : fetchAll net urls = some pairs) :
    ∀ u ∈ urls, ∃ r, net u = some r ∧ respOk r = true ∧ (u, r) ∈ pairs := by
  induction urls generalizing pairs with
  | nil => intro u hu; simp at hu
  | cons u0 rest ih =>
    intro u hu
    rcases hn : net u0 with _ | r0
    · simp [fetchAll, hn] at h
    · by_cases hok : respOk r0
      · rcases hrest : fetchAll net rest with _ | pairs0
        · simp [fetchAll, hn, hok, hrest] at h
        · simp [fetchAll, hn, hok, hrest] at h
          rcases List.mem_cons.mp hu with hu0 | hu1
          · subst hu0; exact ⟨r0, hn, hok, by simp [← h]⟩
          · obtain ⟨r, hr1, hr2, hr3⟩ := ih pairs0 hrest u hu1
            exact ⟨r, hr1, hr2, by simp [← h, hr3]⟩
      · simp [fetchAll, hn, hok] at h

theorem fetchAll_keys (net : Network) (urls : List String)
    (pairs : List (String × Response)) (h : fetchAll net urls = some pairs) :
    pairs.map Prod.fst = urls := by
  induction urls generalizing pairs with
  | nil => simp [fetchAll] at h; simp [h]
  | cons u0 rest ih =>
    rcases hn : net u0 with _ | r0
    · simp [fetchAll, hn] at h
    · by_cases hok : respOk r0
      · rcases hrest : fetchAll net rest with _ | pairs0
        · simp [fetchAll, hn, hok, hrest] at h
        · simp [fetchAll, hn, hok, hrest] at h
          simp [← h, ih pairs0 hrest]
      · simp [fetchAll, hn, hok] at h

theorem putAll_lookup_of_not_mem (cs : CacheStorage) (name : String)
    (pairs : List (String × Response)) (u : String)
    (h : u ∉ pairs.map Prod.fst) :
    partitionLookup (putAll cs name pairs) name u = partitionLookup cs name u := by
  induction pairs generalizing cs with
  | nil => simp [putAll]
  | cons hd tl ih =>
    obtain ⟨k, r⟩ := hd
    simp only [List.map_cons, List.mem_cons] at h
    push_neg at h
    obtain ⟨hne, hrest⟩ := h
    simp only [putAll]
    rw [ih (cachePut cs name k r) hrest, partitionLookup_cachePut]
    simp [hne]

theorem putAll_lookup_of_mem (cs : CacheStorage) (name : String)
    (pairs : List (String × Response)) (u : String) (r : Response)
    (hmem : (u, r) ∈ pairs) (hnd : (pairs.map Prod.fst).Nodup) :
    partitionLookup (putAll cs name pairs) name u = some r := by
  induction pairs generalizing cs with
  | nil => simp at hmem
  | cons hd tl ih =>
    obtain ⟨k, r0⟩ := hd
    simp only [List.map_cons, List.nodup_cons] at hnd
    obtain ⟨hk, hnd'⟩ := hnd
    rcases List.mem_cons.mp hmem with h0 | h1
    · injection h0 with hu hr
      subst hu; subst hr
      simp only [putAll]
      rw [putAll_lookup_of_not_mem _ _ _ _ hk, partitionLookup_cachePut]
      simp
    · simp only [putAll]
      exact ih (cachePut cs name k r0) h1 hnd'

/-! Claim theorems. -/

/-- C2: for a STATIC-classified GET request, a cache hit is returned
immediately with no network attempt (the result does not depend on the
network oracle and a later request with the network disabled returns the
stored bytes unchanged); on a miss the request is fetched, an ok (2xx)
response is stored into the static partition, and a failed fetch yields the
synthesized 503 "Resource not available offline" response, which is not an
HTML document. -/
theorem C2_static_cache_first (net net' : Network) (cs : CacheStorage) (req : Request) :
    (∀ r, cachesMatch cs req.url = some r →
        handleStaticResource net cs req = (r, cs)) ∧
    (cachesMatch cs req.url = none →
      (∀ nr, net req.url = some nr → respOk nr = true →
          handleStaticResource net cs req =
            (nr, cachePut cs STATIC_CACHE req.url nr) ∧
          handleStaticResource net' (cachePut cs STATIC_CACHE req.url nr) req =
            (nr, cachePut cs STATIC_CACHE req.url nr)) ∧
      (net req.url = none →
          handleStaticResource net cs req = (staticOffline, cs) ∧
          staticOffline.status = 503 ∧
          staticOffline.body = "Resource not available offline" ∧
          staticOffline.contentType ≠ some "text/html")) := by
  refine ⟨?_, fun hm => ⟨?_, ?_⟩⟩
  · intro r hr; simp [handleStaticResource, hr]
  · intro nr hn hok
    refine ⟨by simp [handleStaticResource, hm, hn, hok], ?_⟩
    have hhit := cachesMatch_cachePut_of_none cs STATIC_CACHE req.url nr hm
    simp [handleStaticResource, hhit]
  · intro hn
    exact ⟨by simp [handleStaticResource, hm, hn], rfl, rfl, by simp [staticOffline]⟩

/-- C2 witness: a concrete static asset request is fetched once, stored in
the static partition, and afterwards served from the cache even with the
network disabled. -/
def reqC2 : Request :=
  { method := "GET", url := "https://app.local/static/css/style.css",
    pathname := "/static/css/style.css", origin := "https://app.local",
    protocol := "https:", mode := "no-cors" }

/-- Network oracle for the C2 witness: only the style sheet is reachable. -/
def respC2 : Response := { status := 200, contentType := some "text/css", body := "body-css" }

/-- Network oracle that answers only the C2 asset. -/
def netC2 : Network := fun u => if u == reqC2.url then some respC2 else none

/-- Network oracle modelling a fully unavailable network. -/
def netNone : Network := fun _ => none

theorem C2_static_cache_first_witness :
    handleStaticResource netC2 [] reqC2 =
      (respC2, cachePut [] STATIC_CACHE reqC2.url respC2) ∧
    handleStaticResource netNone (cachePut [] STATIC_CACHE reqC2.url respC2) reqC2 =
      (respC2, cachePut [] STATIC_CACHE reqC2.url respC2) :=
  ((C2_static_cache_first netC2 netNone [] reqC2).2 (by decide)).1 respC2 (by decide) (by decide)

set_option maxRecDepth 40000 in
/-- C3: for a NAVIGATION request whose fetch fails and whose cache lookup
misses, the result is exactly the synthesized offline HTML page — status
200, an HTML document containing the human-readable offline message and the
"Try Again" retry control — with the cache storage untouched. -/
theorem C3_navigation_offline_fallback (net : Network) (cs : CacheStorage)
    (req : Request) (hn : net req.url = none) (hc : cachesMatch cs req.url = none) :
    handleNavigationRequest net cs req = (createOfflinePage, cs) ∧
    createOfflinePage.status = 200 ∧
    createOfflinePage.contentType = some "text/html" ∧
    strContains createOfflinePage.body "You\x27re Offline" = true ∧
    strContains createOfflinePage.body "Try Again" = true ∧
    strContains createOfflinePage.body "onclick=\"window.location.reload()\"" = true := by
  refine ⟨by simp [handleNavigationRequest, hn, hc], rfl, rfl, ?_, ?_, ?_⟩ <;> decide

/-- C3 witness request: an uncached navigation while offline. -/
def reqC3 : Request :=
  { method := "GET", url := "https://app.local/modules/3",
    pathname := "/modules/3", origin := "https://app.local",
    protocol := "https:", mode := "navigate", accept := some "text/html" }

theorem C3_navigation_offline_fallback_witness :
    handleNavigationRequest netNone [] reqC3 = (createOfflinePage, []) ∧
    createOfflinePage.status = 200 :=
  ⟨(C3_navigation_offline_fallback netNone [] reqC3 rfl rfl).1,
   (C3_navigation_offline_fallback netNone [] reqC3 rfl rfl).2.1⟩

/-- C4: the activate cleanup deletes every cache whose name is not one of
the current version's three partition names and leaves the current
partitions untouched, entries included. -/
theorem C4_activate_purges_stale (cs : CacheStorage) (name : String) :
    lookupCache (activateEvent cs) name =
      if name == STATIC_CACHE || name == DYNAMIC_CACHE || name == API_CACHE then
        lookupCache cs name
      else none := by
  induction cs with
  | nil =>
    by_cases h : (name == STATIC_CACHE || name == DYNAMIC_CACHE || name == API_CACHE) = true <;>
      simp_all [activateEvent, lookupCache]
  | cons hd tl ih =>
    obtain ⟨n, c⟩ := hd
    by_cases h : (n == STATIC_CACHE || n == DYNAMIC_CACHE || n == API_CACHE) = true
    · by_cases hn : n = name
      · subst hn
        simp [activateEvent, List.filter_cons, h, lookupCache]
      · simp only [activateEvent, List.filter_cons, h, if_true] at ih ⊢
        simp [lookupCache, hn, ih]
    · by_cases hn : n = name
      · subst hn
        simp only [activateEvent, List.filter_cons, h] at ih ⊢
        simp only [Bool.not_eq_true] at h
        simp [ih, h, lookupCache]
      · simp only [activateEvent, List.filter_cons, h] at ih ⊢
        simp [lookupCache, hn, ih]

/-- C5: when every manifest URL fetches successfully, the install trigger
stores each one into the current static partition (a lookup immediately
after install finds the fetched response without a network call) and then
reaches `skipWaiting`; when the batch fails, the error is caught and logged
(`preCacheError`), the install event still completes — the result state is
just the opened static partition — but `skipWaiting` is not reached. -/
theorem C5_install_precache (net : Network) (cs : CacheStorage) :
    (∀ pairs, fetchAll net STATIC_RESOURCES = some pairs →
      (installEvent net cs).skipWaiting = true ∧
      (installEvent net cs).preCacheError = false ∧
      ∀ u ∈ STATIC_RESOURCES, ∃ r, net u = some r ∧ respOk r = true ∧
        partitionLookup (installEvent net cs).caches STATIC_CACHE u = some r) ∧
    (fetchAll net STATIC_RESOURCES = none →
      (installEvent net cs).skipWaiting = false ∧
      (installEvent net cs).preCacheError = true ∧
      (installEvent net cs).caches = cacheOpen cs STATIC_CACHE) := by
  constructor
  · intro pairs h
    refine ⟨by simp [installEvent, h], by simp [installEvent, h], ?_⟩
    intro u hu
    obtain ⟨r, hr1, hr2, hr3⟩ := fetchAll_mem net STATIC_RESOURCES pairs h u hu
    refine ⟨r, hr1, hr2, ?_⟩
    have hkeys := fetchAll_keys net STATIC_RESOURCES pairs h
    have hnd : (pairs.map Prod.fst).Nodup := by
      rw [hkeys]; decide
    simp only [installEvent, h]
    exact putAll_lookup_of_mem (cacheOpen cs STATIC_CACHE) STATIC_CACHE pairs u r hr3 hnd
  · intro h
    exact ⟨by simp [installEvent, h], by simp [installEvent, h], by simp [installEvent, h]⟩

/-- Network oracle for the C5 witness: every URL answers with a fresh ok
response whose body echoes the URL. -/
def netC5 : Network := fun u => some { status := 200, body := u }

theorem C5_install_precache_witness :
    (installEvent netC5 []).skipWaiting = true ∧
    ∃ r, netC5 "/static/js/main.js" = some r ∧ respOk r = true ∧
      partitionLookup (installEvent netC5 []).caches STATIC_CACHE
        "/static/js/main.js" = some r :=
  ⟨((C5_install_precache netC5 []).1
      (STATIC_RESOURCES.map fun u => (u, { status := 200, body := u })) (by decide)).1,
   ((C5_install_precache netC5 []).1
      (STATIC_RESOURCES.map fun u => (u, { status := 200, body := u })) (by decide)).2.2
      "/static/js/main.js" (by decide)⟩

/-- Cross-origin request used in the C6 counterexample: a CDN script
reachable through a CORS fetch. -/
def reqC6 : Request :=
  { method := "GET",
    url := "https://cdn.jsdelivr.net/npm/sortablejs@latest/Sortable.min.js",
    pathname := "/npm/sortablejs@latest/Sortable.min.js",
    origin := "https://cdn.jsdelivr.net", protocol := "https:", mode := "cors" }

/-- A 2xx response of Fetch type `cors` — not "basic"/same-origin. -/
def corsRespC6 : Response :=
  { status := 200, rtype := RType.cors, contentType := some "text/javascript",
    body := "sortable-lib" }

/-- Network oracle for the C6 counterexample. -/
def netC6 : Network := fun u => if u == reqC6.url then some corsRespC6 else none

/-- C6 counterexample: the store condition is `response.ok` alone — the
response type is never inspected — so a 2xx response of type `cors`
(cross-origin, not "basic") is stored into the static partition, refuting
"only ... 'basic'/same-origin type are ever stored". -/
theorem C6_counterexample :
    (fetchListener "https://app.local" netC6 [] reqC6).2 =
      [(STATIC_CACHE, [(reqC6.url, corsRespC6)])] ∧
    partitionLookup (fetchListener "https://app.local" netC6 [] reqC6).2
      STATIC_CACHE reqC6.url = some corsRespC6 ∧
    corsRespC6.rtype ≠ RType.basic := by decide

/-- C6 amended: every entry any strategy ever stores is an ok (2xx)
response — the response type is not checked — and storing under an existing
key is a full overwrite of the entry. -/
theorem C6_only_ok_stored_and_overwrite (selfOrigin : String) (net : Network)
    (cs : CacheStorage) (req : Request) (name key : String) :
    (partitionLookup (fetchListener selfOrigin net cs req).2 name key ≠
        partitionLookup cs name key →
      ∃ r, partitionLookup (fetchListener selfOrigin net cs req).2 name key = some r ∧
        respOk r = true) ∧
    (∀ r, partitionLookup (cachePut cs name key r) name key = some r) := by
  constructor
  · intro hch
    rcases fetchListener_cases selfOrigin net cs req with hsame | ⟨nr, hn, hok, hput⟩
    · exact absurd (by rw [hsame]) hch
    · rw [hput, partitionLookup_cachePut] at hch ⊢
      by_cases hcase : name = strategyCache (classify selfOrigin req) ∧ key = req.url
      · simp only [hcase, if_pos]; exact ⟨nr, rfl, hok⟩
      · rw [if_neg hcase] at hch; exact absurd rfl hch
  · intro r; rw [partitionLookup_cachePut]; simp

/-- C6 witness: a same-origin 2xx API response is stored, and overwriting a
previously stored entry replaces it wholesale. -/
def reqC6w : Request :=
  { method := "GET", url := "https://app.local/api/modules",
    pathname := "/api/modules", origin := "https://app.local",
    protocol := "https:", mode := "cors" }

/-- Network oracle for the C6 witness. -/
def netC6w : Network :=
  fun u => if u == reqC6w.url then some { status := 200, body := "[1,2]" } else none

theorem C6_only_ok_stored_and_overwrite_witness :
    (∃ r, partitionLookup (fetchListener "https://app.local" netC6w [] reqC6w).2
        API_CACHE reqC6w.url = some r ∧ respOk r = true) ∧
    partitionLookup
        (cachePut [(API_CACHE, [(reqC6w.url, { status := 200, body := "[1]" })])]
          API_CACHE reqC6w.url { status := 200, body := "[1,2]" })
        API_CACHE reqC6w.url = some { status := 200, body := "[1,2]" } :=
  ⟨(C6_only_ok_stored_and_overwrite "https://app.local" netC6w [] reqC6w
      API_CACHE reqC6w.url).1 (by decide),
   (C6_only_ok_stored_and_overwrite "https://app.local" netC6w
      [(API_CACHE, [(reqC6w.url, { status := 200, body := "[1]" })])] reqC6w
      API_CACHE reqC6w.url).2 { status := 200, body := "[1,2]" }⟩

/-- Navigation request used in the C7 counterexample. -/
def reqNavC7 : Request :=
  { method := "GET", url := "https://app.local/modules/1",
    pathname := "/modules/1", origin := "https://app.local",
    protocol := "https:", mode := "navigate", accept := some "text/html" }

/-- The same URL requested later as a plain subresource (no navigation mode,
no HTML accept hint), which the classifier sends to the DYNAMIC strategy. -/
def reqDynC7 : Request :=
  { method := "GET", url := "https://app.local/modules/1",
    pathname := "/modules/1", origin := "https://app.local",
    protocol := "https:", mode := "cors", accept := none }

/-- The page served while online in the C7 counterexample. -/
def pageRespC7 : Response :=
  { status := 200, contentType := some "text/html", body := "<html>m1</html>" }

/-- Network oracle for the first C7 request (online). -/
def netC7 : Network := fun u => if u == reqNavC7.url then some pageRespC7 else none

/-- A leftover cache from the previous worker version, still present before
activation purges it. -/
def staleC7 : CacheStorage :=
  [("tutorial-platform-v1", [("https://app.local/static/css/style.css",
      { status := 200, body := "old-css" })])]

/-- Old-version request for a static asset, used in the C7 counterexample. -/
def reqStaticC7 : Request :=
  { method := "GET", url := "https://app.local/static/css/style.css",
    pathname := "/static/css/style.css", origin := "https://app.local",
    protocol := "https:", mode := "no-cors" }

/-- C7 counterexample: (1) an entry written by the NAVIGATION strategy is
read back and served by a later DYNAMIC-classified request for the same URL
(both strategies share the dynamic partition and lookups are global); (2) a
cache read is not scoped to the strategy's own partition: with only a
stale previous-version cache present, the static strategy serves the entry
found there even though the current static partition does not exist. -/
theorem C7_counterexample :
    classify "https://app.local" reqNavC7 = Strategy.NAVIGATION ∧
    classify "https://app.local" reqDynC7 = Strategy.DYNAMIC ∧
    (fetchListener "https://app.local" netC7 [] reqNavC7).2 =
      [(DYNAMIC_CACHE, [(reqNavC7.url, pageRespC7)])] ∧
    (fetchListener "https://app.local" netNone
        ((fetchListener "https://app.local" netC7 [] reqNavC7).2) reqDynC7).1 =
      some pageRespC7 ∧
    classify "https://app.local" reqStaticC7 = Strategy.STATIC ∧
    lookupCache staleC7 STATIC_CACHE = none ∧
    (handleStaticResource netNone staleC7 reqStaticC7).1 =
      { status := 200, body := "old-css" } := by decide

/-- C7 amended: every cache read is an exact-key lookup (a hit is an entry
stored under exactly the looked-up key) but it searches all partitions in
creation order rather than only the strategy's own; every write goes only
to the partition of the request's classified strategy, where NAVIGATION and
DYNAMIC share the dynamic partition. -/
theorem C7_reads_exact_writes_scoped (selfOrigin : String) (net : Network)
    (cs : CacheStorage) (req : Request) (key : String) :
    (∀ r, cachesMatch cs key = some r → ∃ nc ∈ cs, entryLookup nc.2 key = some r) ∧
    (∀ name, name ≠ strategyCache (classify selfOrigin req) →
      ∀ k, partitionLookup (fetchListener selfOrigin net cs req).2 name k =
        partitionLookup cs name k) := by
  refine ⟨fun r hr => cachesMatch_mem cs key r hr, ?_⟩
  intro name hname k
  rcases fetchListener_cases selfOrigin net cs req with hsame | ⟨nr, _, _, hput⟩
  · rw [hsame]
  · rw [hput, partitionLookup_cachePut, if_neg (fun hc => hname hc.1)]

theorem C7_reads_exact_writes_scoped_witness :
    (∃ nc ∈ staleC7,
      entryLookup nc.2 "https://app.local/static/css/style.css" =
        some { status := 200, body := "old-css" }) ∧
    partitionLookup (fetchListener "https://app.local" netC7 [] reqNavC7).2
      API_CACHE reqNavC7.url = partitionLookup [] API_CACHE reqNavC7.url :=
  ⟨(C7_reads_exact_writes_scoped "https://app.local" netC7 staleC7 reqNavC7
      "https://app.local/static/css/style.css").1 _ (by decide),
   (C7_reads_exact_writes_scoped "https://app.local" netC7 [] reqNavC7
      reqNavC7.url).2 API_CACHE (by decide) reqNavC7.url⟩

/-- API request shared by the C1 counterexample. -/
def reqC1 : Request :=
  { method := "GET", url := "https://app.local/api/progress",
    pathname := "/api/progress", origin := "https://app.local",
    protocol := "https:", mode := "cors" }

/-- The response previously cached for `/api/progress`. -/
def cachedC1 : Response :=
  { status := 200, contentType := some "application/json",
    body := "\x7b\"ok\":true\x7d" }

/-- The live 500 answer of the C1 counterexample. -/
def resp500C1 : Response := { status := 500, body := "server error" }

/-- Network oracle answering `/api/progress` with a 500. -/
def netC1 : Network := fun u => if u == reqC1.url then some resp500C1 else none

/-- Cache storage holding a previously stored entry for `/api/progress`. -/
def csC1 : CacheStorage := [(API_CACHE, [(reqC1.url, cachedC1)])]

/-- C1 counterexample: on a non-2xx network response the API strategy does
NOT fall back to the cache — the 500 is returned as-is even though a cached
entry for the exact key exists, refuting "when the network fetch fails or
returns a non-2xx response, it falls back to an exact-key cache lookup,
returning the cached entry if one exists". -/
theorem C1_counterexample :
    netC1 reqC1.url = some resp500C1 ∧
    respOk resp500C1 = false ∧
    cachesMatch csC1 reqC1.url = some cachedC1 ∧
    handleApiRequest netC1 csC1 reqC1 = (resp500C1, csC1) ∧
    (handleApiRequest netC1 csC1 reqC1).1 ≠ cachedC1 := by decide

/-- C1 amended: the API strategy attempts the network first; a completed
fetch is returned as-is — stored into the api partition exactly when it is
2xx (a non-2xx response triggers no cache fallback and no store) — and only
a failed fetch falls back to the exact-key cache lookup, serving the cached
entry when present and otherwise the 503 `{"error": ...}` JSON response. -/
theorem C1_api_network_first (net : Network) (cs : CacheStorage) (req : Request) :
    (∀ nr, net req.url = some nr →
      (respOk nr = true →
        handleApiRequest net cs req = (nr, cachePut cs API_CACHE req.url nr) ∧
        partitionLookup (handleApiRequest net cs req).2 API_CACHE req.url = some nr) ∧
      (respOk nr = false → handleApiRequest net cs req = (nr, cs))) ∧
    (net req.url = none →
      (∀ c, cachesMatch cs req.url = some c → handleApiRequest net cs req = (c, cs)) ∧
      (cachesMatch cs req.url = none →
        handleApiRequest net cs req = (apiOffline, cs) ∧
        apiOffline.status = 503 ∧
        apiOffline.contentType = some "application/json" ∧
        apiOffline.body = "\x7b\"error\":\"Offline - data not available\"\x7d")) := by
  constructor
  · intro nr hn
    constructor
    · intro hok
      refine ⟨by simp [handleApiRequest, hn, hok], ?_⟩
      simp only [handleApiRequest, hn, hok, if_true]
      rw [partitionLookup_cachePut]; simp
    · intro hok; simp [handleApiRequest, hn, hok]
  · intro hn
    constructor
    · intro c hc; simp [handleApiRequest, hn, hc]
    · intro hc; exact ⟨by simp [handleApiRequest, hn, hc], rfl, rfl, rfl⟩

/-- Fresh 2xx response used by the C1 witness. -/
def freshC1 : Response :=
  { status := 200, contentType := some "application/json",
    body := "\x7b\"ok\":false\x7d" }

/-- Network oracle answering `/api/progress` with a fresh 200. -/
def netC1w : Network := fun u => if u == reqC1.url then some freshC1 else none

theorem C1_api_network_first_witness :
    (handleApiRequest netC1w csC1 reqC1 =
      (freshC1, cachePut csC1 API_CACHE reqC1.url freshC1) ∧
     partitionLookup (handleApiRequest netC1w csC1 reqC1).2 API_CACHE reqC1.url =
      some freshC1) ∧
    handleApiRequest netNone [] reqC1 = (apiOffline, []) :=
  ⟨((C1_api_network_first netC1w csC1 reqC1).1 freshC1 (by decide)).1 (by decide),
   (((C1_api_network_first netNone [] reqC1).2 (by decide)).2 (by decide)).1⟩

/-- C8: a non-GET request is not intercepted: the listener yields no
response of its own (the request passes through to the network untouched)
and the cache storage is unchanged, so the request is neither stored in any
partition nor answered from cache. -/
theorem C8_non_get_passthrough (selfOrigin : String) (net : Network)
    (cs : CacheStorage) (req : Request) (h : req.method ≠ "GET") :
    fetchListener selfOrigin net cs req = (none, cs) ∧
    ∀ name key, partitionLookup (fetchListener selfOrigin net cs req).2 name key =
      partitionLookup cs name key := by
  have hcond : (req.method != "GET" || req.protocol == "chrome-extension:") = true := by
    simp [bne_iff_ne, h]
  exact ⟨by simp [fetchListener, hcond], fun name key => by simp [fetchListener, hcond]⟩

/-- POST request used by the C8 witness. -/
def reqC8 : Request :=
  { method := "POST", url := "https://app.local/api/progress",
    pathname := "/api/progress", origin := "https://app.local",
    protocol := "https:", mode := "cors" }

theorem C8_non_get_passthrough_witness :
    fetchListener "https://app.local" netNone [] reqC8 = (none, []) :=
  (C8_non_get_passthrough "https://app.local" netNone [] reqC8 (by decide)).1

/-- C9: every intercepted GET request receives some response from
`handleRequest`; in particular a failed network fetch is recovered locally:
the cache storage is left unchanged and the answer is either a cached entry
for the request's key or one of the synthesized fallbacks (the static 503,
the API 503 JSON, the dynamic 503, or the offline page). -/
theorem C9_always_responds (selfOrigin : String) (net : Network)
    (cs : CacheStorage) (req : Request) (hm : req.method = "GET")
    (hp : req.protocol ≠ "chrome-extension:") :
    (∃ r, (fetchListener selfOrigin net cs req).1 = some r) ∧
    (net req.url = none →
      (fetchListener selfOrigin net cs req).2 = cs ∧
      ∃ r, (fetchListener selfOrigin net cs req).1 = some r ∧
        (cachesMatch cs req.url = some r ∨ r = staticOffline ∨ r = apiOffline ∨
         r = dynamicOffline ∨ r = createOfflinePage)) := by
  have hcond : (req.method != "GET" || req.protocol == "chrome-extension:") = false := by
    simp [bne_iff_ne, hm, hp]
  have hfl : fetchListener selfOrigin net cs req =
      (some (handleRequest selfOrigin net cs req).1,
       (handleRequest selfOrigin net cs req).2) := by
    simp [fetchListener, hcond]
  refine ⟨⟨(handleRequest selfOrigin net cs req).1, by rw [hfl]⟩, ?_⟩
  intro hnet
  rw [hfl]
  unfold handleRequest
  rcases classify selfOrigin req with _ | _ | _ | _
  · rcases hc : cachesMatch cs req.url with _ | r
    · exact ⟨by simp [handleStaticResource, hc, hnet],
        staticOffline, by simp [handleStaticResource, hc, hnet], by simp⟩
    · exact ⟨by simp [handleStaticResource, hc],
        r, by simp [handleStaticResource, hc], Or.inl rfl⟩
  · rcases hc : cachesMatch cs req.url with _ | r
    · exact ⟨by simp [handleApiRequest, hc, hnet],
        apiOffline, by simp [handleApiRequest, hc, hnet], by simp⟩
    · exact ⟨by simp [handleApiRequest, hc, hnet],
        r, by simp [handleApiRequest, hc, hnet], Or.inl rfl⟩
  · rcases hc : cachesMatch cs req.url with _ | r
    · exact ⟨by simp [handleNavigationRequest, hc, hnet],
        createOfflinePage, by simp [handleNavigationRequest, hc, hnet], by simp⟩
    · exact ⟨by simp [handleNavigationRequest, hc, hnet],
        r, by simp [handleNavigationRequest, hc, hnet], Or.inl rfl⟩
  · rcases hc : cachesMatch cs req.url with _ | r
    · exact ⟨by simp [handleDynamicResource, hc, hnet],
        dynamicOffline, by simp [handleDynamicResource, hc, hnet], by simp⟩
    · exact ⟨by simp [handleDynamicResource, hc, hnet],
        r, by simp [handleDynamicResource, hc, hnet], Or.inl rfl⟩

/-- Uncached dynamic request used by the C9 witness. -/
def reqC9 : Request :=
  { method := "GET", url := "https://app.local/part.json",
    pathname := "/part.json", origin := "https://app.local",
    protocol := "https:", mode := "cors" }

theorem C9_always_responds_witness :
    (∃ r, (fetchListener "https://app.local" netNone [] reqC9).1 = some r) ∧
    (fetchListener "https://app.local" netNone [] reqC9).2 = [] :=
  ⟨(C9_always_responds "https://app.local" netNone [] reqC9 rfl (by decide)).1,
   ((C9_always_responds "https://app.local" netNone [] reqC9 rfl (by decide)).2 rfl).1⟩

/-- C10: under every strategy, a network fetch that completes with a
non-2xx status is returned to the caller unchanged — the cache storage is
left as it was, so nothing is stored and neither a cache fallback nor an
offline fallback is invoked, even when a cached entry for the key exists.
For API, NAVIGATION and DYNAMIC this holds for every cache state; for
STATIC the cache-miss hypothesis only makes the strategy reach its fetch at
all (on a hit it never consults the network). -/
theorem C10_non_2xx_returned_unchanged (net : Network) (cs : CacheStorage)
    (req : Request) (nr : Response) (hn : net req.url = some nr)
    (hok : respOk nr = false) :
    handleApiRequest net cs req = (nr, cs) ∧
    handleNavigationRequest net cs req = (nr, cs) ∧
    handleDynamicResource net cs req = (nr, cs) ∧
    (cachesMatch cs req.url = none → handleStaticResource net cs req = (nr, cs)) := by
  refine ⟨?_, ?_, ?_, fun hm => ?_⟩
  · simp [handleApiRequest, hn, hok]
  · simp [handleNavigationRequest, hn, hok]
  · simp [handleDynamicResource, hn, hok]
  · simp [handleStaticResource, hm, hn, hok]

/-- The 404 network answer of the C10 witness. -/
def resp404C10 : Response := { status := 404, body := "not found" }

/-- Network oracle answering everything with the 404. -/
def netC10 : Network := fun _ => some resp404C10

/-- Cache storage for the C10 witness: the API partition already holds a
200 entry for `/api/progress` and the dynamic partition a page for
`/modules/3` — the very states in which a cache fallback could fire. -/
def csC10 : CacheStorage :=
  [(API_CACHE, [(reqC1.url, cachedC1)]),
   (DYNAMIC_CACHE, [(reqC3.url, pageRespC7)])]

theorem C10_non_2xx_returned_unchanged_witness :
    cachesMatch csC10 reqC1.url = some cachedC1 ∧
    handleApiRequest netC10 csC10 reqC1 = (resp404C10, csC10) ∧
    cachesMatch csC10 reqC3.url = some pageRespC7 ∧
    handleNavigationRequest netC10 csC10 reqC3 = (resp404C10, csC10) :=
  ⟨by decide,
   (C10_non_2xx_returned_unchanged netC10 csC10 reqC1 resp404C10 rfl (by decide)).1,
   by decide,
   (C10_non_2xx_returned_unchanged netC10 csC10 reqC3 resp404C10 rfl (by decide)).2.1⟩
